import Mathlib

/-!
Verification of the STOMP client core of `cpp_amq_docker` (producer
`producer/main.cpp` and consumer `main.cpp`, class `SimpleStompClient`).

Bytes are modelled as `Nat` values (ASCII codes); a C++ `std::string`
used as a byte buffer becomes `List Nat`.  All functions are translated
from the C++ source, including its idiosyncrasies:

* appending the C literal `"\0"` to a `std::string` appends **zero**
  characters (the literal is an empty C string), so the producer's
  `sendMessage` emits no NUL terminator byte;
* `std::string response(buffer)` constructs from a NUL-terminated C
  string and therefore truncates the received chunk at its first 0 byte;
* `find` works by substring search, not by frame parsing.
-/

/-- ASCII bytes of a Lean string literal. -/
def s2b (s : String) : List Nat := s.toList.map Char.toNat

/-- Decimal digits of a natural number as ASCII bytes; models
`std::to_string` on an unsigned length. -/
def natDec (n : Nat) : List Nat := (Nat.toDigits 10 n).map Char.toNat

/-- `std::string response(buffer)`: the bytes of the chunk up to (not
including) the first 0 byte. -/
def cstr (l : List Nat) : List Nat := l.takeWhile (fun b => b != 0)

/-- `std::string::find(pat)`: index of the first occurrence of `pat` as a
contiguous sublist of `s`, or `none` for `npos`. -/
def findSub (pat : List Nat) : List Nat → Option Nat
  | [] => if pat.isPrefixOf ([] : List Nat) then some 0 else none
  | a :: t =>
    if pat.isPrefixOf (a :: t) then some 0
    else (findSub pat t).map (· + 1)

/-- `s.find(pat) != std::string::npos`. -/
def hasSubstr (pat s : List Nat) : Bool := (findSub pat s).isSome

/-- The pattern `"MESSAGE"` searched for by `receiveMessage`. -/
def patMESSAGE : List Nat := s2b "MESSAGE"

/-- The pattern `"CONNECTED"` searched for by `connect`. -/
def patCONNECTED : List Nat := s2b "CONNECTED"

/-- The header/body separator `"\n\n"`. -/
def patBlank : List Nat := s2b "\n\n"

/-- Client state: the socket descriptor and the `connected` flag of
`SimpleStompClient`. -/
structure ClientState where
  sockfd : Int
  connected : Bool
deriving DecidableEq

/-- Bytes built by `SimpleStompClient::sendMessage` (producer
`main.cpp` lines 94–99).  The final C++ statement is
`sendFrame += "\n" + message + "\0";` — appending the C literal `"\0"`
to a `std::string` appends nothing, so no NUL terminator byte is
produced and `send` transmits exactly these bytes. -/
def sendFrame (destination message : List Nat) : List Nat :=
  s2b "SEND\n"
    ++ s2b "destination:" ++ destination ++ s2b "\n"
    ++ s2b "content-type:text/plain\n"
    ++ s2b "content-length:" ++ natDec message.length ++ s2b "\n"
    ++ s2b "\n" ++ message

/-- Bytes built by `SimpleStompClient::subscribe` (consumer lines
95–100); here the terminator is appended correctly via `+= char(0)`. -/
def subscribeFrame (destination subId : List Nat) : List Nat :=
  s2b "SUBSCRIBE\n"
    ++ s2b "destination:" ++ destination ++ s2b "\n"
    ++ s2b "id:" ++ subId ++ s2b "\n"
    ++ s2b "ack:auto\n"
    ++ s2b "\n" ++ [0]

/-- Bytes built by the consumer's `disconnect` (lines 145–146):
`"DISCONNECT\n\n"` followed by `char(0)`. -/
def disconnectFrame : List Nat := s2b "DISCONNECT\n\n" ++ [0]

/-- Bytes built by the producer's `disconnect` (line 110):
`std::string disconnectFrame = "DISCONNECT\n\n\0";` constructs from a
NUL-terminated C literal, so the NUL and anything after it are dropped
and only 12 bytes are sent. -/
def disconnectFrameP : List Nat := s2b "DISCONNECT\n\n"

/-- The frame-body extraction of `SimpleStompClient::receiveMessage`
(consumer lines 119–137), applied to one `recv` chunk:
`std::string response(buffer)` truncates at the first 0 byte; if the
result contains `"MESSAGE"`, the body starts after the first `"\n\n"`
and runs to the first `\0` found in `response` from there (never found,
since `response` is already NUL-free) or else to the end of `response`;
in every other case the empty string is returned. -/
def receiveParse (chunk : List Nat) : List Nat :=
  let response := cstr chunk
  if hasSubstr patMESSAGE response then
    match findSub patBlank response with
    | some i =>
      let rest := response.drop (i + 2)
      match findSub [0] rest with
      | some j => rest.take j
      | none => rest
    | none => []
  else []

/-- `SimpleStompClient::receiveMessage` (consumer lines 111–141).
`readRes` is the outcome of the single `recv` call: `none` for a read
error, `some chunk` for `bytes_read = chunk.length` bytes read.  The
function is stateless over reads: it owns no accumulating buffer, so
any residual bytes of a chunk are discarded when it returns. -/
def receiveMessage (connected : Bool) (readRes : Option (List Nat)) : List Nat :=
  if !connected then []
  else
    match readRes with
    | none => []
    | some chunk => if chunk.length = 0 then [] else receiveParse chunk

/-- One iteration of the consumer main receive loop (lines 200–220):
the delivery counter is incremented exactly when the returned message
is non-empty. -/
def loopStep (count : Nat) (msg : List Nat) : Nat :=
  if msg ≠ [] then count + 1 else count

/-- The response handling of `SimpleStompClient::connect` after the
CONNECT frame was sent (consumer lines 71–87, producer lines 70–85):
on a successful read of a chunk containing the substring `"CONNECTED"`
(searched in the chunk truncated at its first 0 byte) the client sets
`connected = true` and reports success; otherwise it reports failure
and leaves `connected` unchanged. -/
def connectHandshake (s : ClientState) (readRes : Option (List Nat)) :
    ClientState × Bool :=
  match readRes with
  | none => (s, false)
  | some chunk =>
    if 0 < chunk.length then
      if hasSubstr patCONNECTED (cstr chunk) then
        ({ s with connected := true }, true)
      else (s, false)
    else (s, false)

/-- `SimpleStompClient::sendMessage` (producer lines 88–106) as a state
transformer.  `writeOk` is the outcome of the `send` syscall.  Output:
(state after the call, returned bool, frames written to the socket).
The method never mutates `connected` or `sockfd`; when not connected it
returns `false` immediately and writes nothing. -/
def sendMessage (s : ClientState) (writeOk : Bool)
    (destination message : List Nat) :
    ClientState × Bool × List (List Nat) :=
  if s.connected = false then (s, false, [])
  else (s, writeOk, [sendFrame destination message])

/-- `SimpleStompClient::subscribe` (consumer lines 89–109) as a state
transformer, same conventions as `sendMessage`. -/
def subscribe (s : ClientState) (writeOk : Bool)
    (destination subId : List Nat) :
    ClientState × Bool × List (List Nat) :=
  if s.connected = false then (s, false, [])
  else (s, writeOk, [subscribeFrame destination subId])

/-- The consumer's `disconnect` (lines 143–152): when `connected` and
the descriptor is valid it writes the DISCONNECT frame (ignoring the
write's outcome), closes the socket and clears `connected`; otherwise
it does nothing.  Output: (new state, frames written, socket closed?).
The method cannot fail: it returns `void` and ignores the `send`
result. -/
def disconnect (s : ClientState) : ClientState × List (List Nat) × Bool :=
  if s.connected && decide (0 ≤ s.sockfd) then
    (⟨s.sockfd, false⟩, [disconnectFrame], true)
  else (s, [], false)

/-- The producer's `disconnect` (producer lines 108–116); identical
control flow, producer frame bytes. -/
def disconnectP (s : ClientState) : ClientState × List (List Nat) × Bool :=
  if s.connected && decide (0 ≤ s.sockfd) then
    (⟨s.sockfd, false⟩, [disconnectFrameP], true)
  else (s, [], false)

/-- Observable events of the connection retry loop. -/
inductive Ev where
  | attempt : Nat → Ev
  | sleep : Ev
deriving DecidableEq

/-- The retry loop of `main` (producer lines 142–154, consumer lines
168–180), started at attempt number `retry` with `attemptsLeft`
iterations remaining: each iteration logs `attempt retry`, calls
`connect`; on success the loop breaks with `true`; on failure, if this
was not the last iteration, the process sleeps for the fixed 3-second
backoff and continues. -/
def retryAux (c : Nat → Bool) : Nat → Nat → List Ev × Bool
  | _, 0 => ([], false)
  | retry, k + 1 =>
    if c retry then ([Ev.attempt retry], true)
    else if k = 0 then ([Ev.attempt retry], false)
    else
      let r := retryAux c (retry + 1) k
      (Ev.attempt retry :: Ev.sleep :: r.1, r.2)

/-- The full retry loop: attempts numbered from 1 up to `maxRetries`. -/
def connectRetryLoop (c : Nat → Bool) (maxRetries : Nat) : List Ev × Bool :=
  retryAux c 1 maxRetries

/-- After the loop, `main` either proceeds (`ok`) or reports the
terminal failure "Failed to connect ... after max_retries attempts"
and exits with code 1; the error carries the attempt count printed. -/
def mainConnectResult (c : Nat → Bool) (maxRetries : Nat) : Except Nat Unit :=
  if (connectRetryLoop c maxRetries).2 then Except.ok () else Except.error maxRetries

/-- Attempt numbers occurring in an event trace, in order. -/
def attemptNums (es : List Ev) : List Nat :=
  es.filterMap (fun e => match e with | Ev.attempt n => some n | Ev.sleep => none)

/-- The expected trace of a run in which every attempt fails, starting
at attempt number `r`: attempts `r, r+1, …` with exactly one sleep
between consecutive attempts and none after the last. -/
def failTrace : Nat → Nat → List Ev
  | _, 0 => []
  | r, 1 => [Ev.attempt r]
  | r, k + 2 => Ev.attempt r :: Ev.sleep :: failTrace (r + 1) (k + 1)

/-- A wire-format MESSAGE frame as the broker sends it (spec section 6
frame grammar); used only to build concrete inputs for the decoder. -/
def mkMessageFrame (body : List Nat) : List Nat :=
  s2b "MESSAGE\ndestination:/queue/x\nmessage-id:1\n\n" ++ body ++ [0]

/-- A wire-format MESSAGE frame carrying `content-length:3` and the
3-byte body `[97, 0, 98]` (`a`, NUL, `b`); input for claim C4. -/
def clFrame : List Nat :=
  s2b "MESSAGE\ndestination:/queue/x\ncontent-length:3\n\n"
    ++ [97, 0, 98] ++ [0]

/-- An ERROR frame whose body happens to contain the word CONNECTED. -/
def errChunkConnected : List Nat :=
  s2b "ERROR\nmessage:expected CONNECTED frame\n\n" ++ [0]

/-- An ordinary ERROR frame (no MESSAGE / CONNECTED substrings). -/
def errChunk : List Nat :=
  s2b "ERROR\ncontent-length:10\n\nbad header" ++ [0]

/-- A well-formed MESSAGE frame with an empty body. -/
def emptyBodyFrame : List Nat :=
  s2b "MESSAGE\ndestination:/queue/ProjectQueue\nmessage-id:1\n\n" ++ [0]

/-- Helper: any chunk whose NUL-truncation does not contain the
substring MESSAGE makes `receiveMessage` return the empty string. -/
theorem recvMsg_empty_of_no_pat (chunk : List Nat)
    (h : hasSubstr patMESSAGE (cstr chunk) = false) :
    receiveMessage true (some chunk) = [] := by
  unfold receiveMessage receiveParse
  by_cases hl : chunk.length = 0 <;> simp [hl, h]

/-- Helper: with an always-failing connect, the retry loop started at
attempt `r` with `k` attempts remaining produces the expected trace and
reports failure. -/
theorem retryAux_fail (k : Nat) :
    ∀ r, retryAux (fun _ => false) r k = (failTrace r k, false) := by
  induction k with
  | zero => intro r; rfl
  | succ k ih =>
    intro r
    cases k with
    | zero => rfl
    | succ k2 =>
      have h := ih (r + 1)
      rw [retryAux]
      rw [h]
      simp [failTrace]

/-- Helper: the attempt numbers of a failing trace starting at `r` with
`k` attempts are exactly `r, r+1, …, r+k-1`. -/
theorem attemptNums_failTrace (k : Nat) :
    ∀ r, attemptNums (failTrace r k) = List.range' r k := by
  induction k with
  | zero => intro r; rfl
  | succ k ih =>
    intro r
    cases k with
    | zero => rfl
    | succ k2 =>
      show attemptNums (Ev.attempt r :: Ev.sleep :: failTrace (r + 1) (k2 + 1))
          = List.range' r (k2 + 2)
      simp [attemptNums, List.range'] at ih ⊢
      exact ih (r + 1)

/-- C1: the decoder is NOT insensitive to chunking. Feeding
`encode(f1) ++ encode(f2)` as one chunk yields only f1's body and
discards f2 entirely (no Incomplete, no residual buffer — the bytes of
the second frame are dropped), and a chunk holding only a 4-byte prefix
of a frame yields the empty string while the partial bytes are not
retained (`receiveMessage` is stateless over reads). -/
theorem coalesced_frames_second_frame_lost :
    receiveMessage true (some (mkMessageFrame (s2b "A") ++ mkMessageFrame (s2b "B")))
      = s2b "A" ∧
    receiveMessage true (some ((mkMessageFrame (s2b "A")).take 4)) = [] := by
  decide

/-- C2: the round-trip fails on the code. Decoding the bytes produced
by encoding the SEND frame with destination `/queue/x` and non-empty
body `hello` yields the empty string — neither the command token, nor
the header mapping, nor the body bytes are reproduced (the decoder
recognizes only chunks containing the substring MESSAGE and returns at
most a body). -/
theorem decode_encode_yields_empty :
    receiveMessage true (some (sendFrame (s2b "/queue/x") (s2b "hello"))) = [] ∧
    sendFrame (s2b "/queue/x") (s2b "hello") ≠ [] := by
  decide

/-- C3: the encoder writes the command line, the headers (including
`content-length:5`), the blank line and the body `hello`, but NO NUL
terminator byte at all: appending the C literal `"\0"` to a
`std::string` appends nothing, so the encoded bytes contain no 0x00
byte and end with the body. -/
theorem sendFrame_hello_no_terminator :
    sendFrame (s2b "/queue/x") (s2b "hello")
      = s2b "SEND\ndestination:/queue/x\ncontent-type:text/plain\ncontent-length:5\n\nhello" ∧
    (sendFrame (s2b "/queue/x") (s2b "hello")).count 0 = 0 ∧
    hasSubstr (s2b "content-length:5") (sendFrame (s2b "/queue/x") (s2b "hello")) = true := by
  decide

/-- C4: the decoder ignores the `content-length` header. For a MESSAGE
frame carrying `content-length:3` and the body `[97, 0, 98]` the
decoder returns only `a` — the chunk is truncated at the first NUL
byte, so a NUL inside the body is treated as a terminator, not as
ordinary data, and the payload is not preserved. -/
theorem content_length_ignored_truncates_at_nul :
    hasSubstr (s2b "content-length:3") clFrame = true ∧
    receiveMessage true (some clFrame) = s2b "a" := by
  decide

/-- C5: with a transport that always fails, the retry loop with
`maxAttempts = N` performs exactly the attempts numbered 1..N, with one
fixed-backoff sleep between consecutive attempts and none after the
last, reports failure, and `main` then returns the terminal connection
error carrying attempts = N; there is never an (N+1)-th attempt and
the run never reports success. -/
theorem connect_retry_bound (N : Nat) :
    connectRetryLoop (fun _ => false) N = (failTrace 1 N, false) ∧
    attemptNums (connectRetryLoop (fun _ => false) N).1 = List.range' 1 N ∧
    (attemptNums (connectRetryLoop (fun _ => false) N).1).length = N ∧
    mainConnectResult (fun _ => false) N = Except.error N := by
  have h1 : connectRetryLoop (fun _ => false) N = (failTrace 1 N, false) :=
    retryAux_fail N 1
  refine ⟨h1, ?_, ?_, ?_⟩
  · rw [h1]; exact attemptNums_failTrace N 1
  · rw [h1]; simp [attemptNums_failTrace N 1]
  · unfold mainConnectResult; rw [h1]; simp

/-- C6 counterexample: an ERROR frame whose body contains the word
CONNECTED makes the handshake succeed and the client enter the
Connected state — the code tests for the substring CONNECTED anywhere
in the chunk, not for a CONNECTED frame. -/
theorem error_frame_with_connected_substring_succeeds :
    findSub (s2b "ERROR\n") errChunkConnected = some 0 ∧
    (connectHandshake ⟨5, false⟩ (some errChunkConnected)).2 = true ∧
    (connectHandshake ⟨5, false⟩ (some errChunkConnected)).1.connected = true := by
  decide

/-- C6 (amended): after sending CONNECT, the handshake succeeds if and
only if the read returns at least one byte and the received bytes, up
to the first NUL, contain the substring CONNECTED; an ERROR frame or
malformed response fails the handshake exactly when it lacks that
substring, and on failure the connection does not enter the Connected
state. -/
theorem connect_success_iff_substring (s : ClientState) (h : s.connected = false) :
    connectHandshake s none = (s, false) ∧
    (∀ chunk, (connectHandshake s (some chunk)).2
        = (decide (0 < chunk.length) && hasSubstr patCONNECTED (cstr chunk))) ∧
    (∀ r, (connectHandshake s r).2 = false → (connectHandshake s r).1.connected = false) := by
  refine ⟨rfl, fun chunk => ?_, fun r hr => ?_⟩
  · unfold connectHandshake
    by_cases hl : 0 < chunk.length
    · by_cases hc : hasSubstr patCONNECTED (cstr chunk) = true <;> simp [hl, hc]
    · simp [hl]
  · match r with
    | none => exact h
    | some chunk =>
      unfold connectHandshake at hr ⊢
      by_cases hl : 0 < chunk.length
      · by_cases hc : hasSubstr patCONNECTED (cstr chunk) = true
        · simp [hl, hc] at hr
        · simp [hl, hc, h]
      · simp [hl, h]

/-- Witness for the amended C6 theorem at a concrete state. -/
theorem connect_success_iff_substring_witness :
    (ClientState.mk 5 false).connected = false ∧
    connectHandshake ⟨5, false⟩ none = (⟨5, false⟩, false) :=
  ⟨rfl, (connect_success_iff_substring ⟨5, false⟩ rfl).1⟩

/-- C7 counterexample: an ERROR frame makes `receiveMessage` return the
empty string — exactly the value returned on a failed read — so no
ProtocolError carrying the frame's content is produced and the result
is indistinguishable from a timeout; the delivery counter stays 0. -/
theorem error_frame_indistinguishable_from_no_message :
    findSub (s2b "ERROR\n") errChunk = some 0 ∧
    receiveMessage true (some errChunk) = [] ∧
    receiveMessage true (some errChunk) = receiveMessage true none ∧
    loopStep 0 (receiveMessage true (some errChunk)) = 0 := by
  decide

/-- C7 (amended): for every received chunk that does not contain the
substring MESSAGE (after truncation at the first NUL) — in particular
an ordinary ERROR frame — `receiveMessage` returns the empty string,
the same value as a failed read, so the result carries no frame content
and is not distinguishable from a timeout, and the delivery counter is
not incremented. -/
theorem non_message_frames_yield_empty (c : Nat) (chunk : List Nat)
    (h : hasSubstr patMESSAGE (cstr chunk) = false) :
    receiveMessage true (some chunk) = [] ∧
    receiveMessage true (some chunk) = receiveMessage true none ∧
    loopStep c (receiveMessage true (some chunk)) = c := by
  have h1 := recvMsg_empty_of_no_pat chunk h
  exact ⟨h1, by rw [h1]; rfl, by rw [h1]; rfl⟩

/-- Witness for the amended C7 theorem at a concrete ERROR frame. -/
theorem non_message_frames_yield_empty_witness :
    hasSubstr patMESSAGE (cstr errChunk) = false ∧
    receiveMessage true (some errChunk) = [] :=
  ⟨by decide, (non_message_frames_yield_empty 0 errChunk (by decide)).1⟩

/-- C8: on a connection that is not Connected, `sendMessage` and
`subscribe` both fail immediately (return `false`, the code's
not-connected error) and write nothing to the transport, leaving the
client state unchanged. -/
theorem not_connected_send_subscribe_no_write (s : ClientState) (wOk : Bool)
    (destination message subId : List Nat) (h : s.connected = false) :
    sendMessage s wOk destination message = (s, false, []) ∧
    subscribe s wOk destination subId = (s, false, []) := by
  constructor <;> simp [sendMessage, subscribe, h]

/-- Witness for the C8 theorem at a concrete fresh client state. -/
theorem not_connected_send_subscribe_no_write_witness :
    (ClientState.mk (-1) false).connected = false ∧
    sendMessage ⟨-1, false⟩ true (s2b "/queue/ProjectQueue") (s2b "hello")
      = (⟨-1, false⟩, false, []) :=
  ⟨rfl, (not_connected_send_subscribe_no_write ⟨-1, false⟩ true
    (s2b "/queue/ProjectQueue") (s2b "hello") (s2b "sub-1") rfl).1⟩

/-- C9: disconnect is idempotent in both the consumer and the producer:
a second call after any first call is a no-op — the state is unchanged,
no frame is written, the socket is not closed again, and (as in the
source, where `disconnect` returns void and ignores the send result)
no error is produced. -/
theorem disconnect_idempotent (s : ClientState) :
    disconnect (disconnect s).1 = ((disconnect s).1, [], false) ∧
    disconnectP (disconnectP s).1 = ((disconnectP s).1, [], false) := by
  constructor
  · by_cases hc : (s.connected && decide (0 ≤ s.sockfd)) = true <;>
      simp [disconnect, hc]
  · by_cases hc : (s.connected && decide (0 ≤ s.sockfd)) = true <;>
      simp [disconnectP, hc]

/-- C10: `receiveMessage` returns the empty string when not connected,
on a failed read, on any chunk without the substring MESSAGE (e.g. an
ERROR frame), and ALSO on a well-formed MESSAGE frame with an empty
body; the consumer loop never counts an empty result as a delivery, so
an empty-bodied MESSAGE is indistinguishable from no message. -/
theorem receiveMessage_empty_cases :
    (∀ r, receiveMessage false r = []) ∧
    receiveMessage true none = [] ∧
    (∀ chunk, hasSubstr patMESSAGE (cstr chunk) = false →
      receiveMessage true (some chunk) = []) ∧
    receiveMessage true (some emptyBodyFrame) = [] ∧
    (∀ n, loopStep n [] = n) := by
  refine ⟨fun r => rfl, rfl, fun chunk h => recvMsg_empty_of_no_pat chunk h,
    by decide, fun n => rfl⟩

/-- Witness for the C10 theorem at a concrete non-MESSAGE chunk. -/
theorem receiveMessage_empty_cases_witness :
    hasSubstr patMESSAGE (cstr (s2b "RECEIPT\nreceipt-id:7\n\n")) = false ∧
    receiveMessage true (some (s2b "RECEIPT\nreceipt-id:7\n\n")) = [] :=
  ⟨by decide, receiveMessage_empty_cases.2.2.1 (s2b "RECEIPT\nreceipt-id:7\n\n") (by decide)⟩
